import Mathlib

/-!
Verification development for the tipple repository's data-freshness / caching
core: the Durable Local Store (`src/lib/localDatabase.ts`, an IndexedDB
wrapper), the Remote Data Gateway (`src/lib/storage.ts`, `adminDataStorage`),
the Smart Cache Coordinator (`src/lib/smartCache.ts`) and the admin mutation
paths (`src/utils/adminDataUtils.ts`).

Modelling conventions:
* Records carry only their unique string identifier and display name. The
  caching layer moves records between tiers wholesale and only ever inspects
  the `id` field (duplicate checks, patch-by-id), so the remaining payload
  fields (description, instructions, abv, ...) are irrelevant to every
  property proved here and are omitted.
* Promises are modelled by explicit state passing; a rejected promise is an
  `Except.error`. Fallible external facts (IndexedDB requests, Supabase
  availability, query outcomes, the wall clock) are supplied through
  environment structures, one field per independent failure point.
* JavaScript `Date.now()` is a `Nat` of milliseconds. `Nat` subtraction is
  truncating, which agrees with the JS boolean `now - last < window` whenever
  `window > 0` (a negative JS age and a truncated-to-zero Lean age both
  compare below the window).
-/

namespace Tipple

/-- Record of the `cocktails` collection (`src/types/cocktail.ts`). Only the
unique key and name are modelled; see the header about payload fields. -/
structure Cocktail where
  id : String
  name : String
deriving DecidableEq, Repr

/-- Record of the `ingredients` collection. -/
structure Ingredient where
  id : String
  name : String
deriving DecidableEq, Repr

/-- Record of the `glass_types` collection. -/
structure GlassType where
  id : String
  name : String
deriving DecidableEq, Repr

/-- Record of the `categories` collection. -/
structure Category where
  id : String
  name : String
deriving DecidableEq, Repr

/-- Compiled-in static cocktails (`src/data/cocktails.ts`, `cocktails`). -/
def staticCocktails : List Cocktail :=
  [⟨"gin-tonic", "Gin & Tonic"⟩, ⟨"margarita", "Margarita"⟩,
   ⟨"moscow-mule", "Moscow Mule"⟩, ⟨"martini", "Classic Martini"⟩,
   ⟨"old-fashioned", "Old Fashioned"⟩, ⟨"daiquiri", "Daiquiri"⟩,
   ⟨"whiskey-sour", "Whiskey Sour"⟩, ⟨"cosmopolitan", "Cosmopolitan"⟩,
   ⟨"mojito", "Mojito"⟩, ⟨"negroni", "Negroni"⟩]

/-- Compiled-in static ingredients (`src/data/ingredients.ts`, `ingredients`). -/
def staticIngredients : List Ingredient :=
  [⟨"vodka", "Vodka"⟩, ⟨"gin", "Gin"⟩, ⟨"rum-white", "White Rum"⟩,
   ⟨"rum-dark", "Dark Rum"⟩, ⟨"whiskey-bourbon", "Bourbon Whiskey"⟩,
   ⟨"tequila-blanco", "Blanco Tequila"⟩, ⟨"triple-sec", "Triple Sec"⟩,
   ⟨"cointreau", "Cointreau"⟩, ⟨"amaretto", "Amaretto"⟩,
   ⟨"tonic-water", "Tonic Water"⟩, ⟨"soda-water", "Soda Water"⟩,
   ⟨"ginger-beer", "Ginger Beer"⟩, ⟨"lime-juice", "Fresh Lime Juice"⟩,
   ⟨"lemon-juice", "Fresh Lemon Juice"⟩, ⟨"orange-juice", "Fresh Orange Juice"⟩,
   ⟨"simple-syrup", "Simple Syrup"⟩, ⟨"grenadine", "Grenadine"⟩,
   ⟨"cranberry-juice", "Cranberry Juice"⟩, ⟨"dry-vermouth", "Dry Vermouth"⟩,
   ⟨"sweet-vermouth", "Sweet Vermouth"⟩, ⟨"campari", "Campari"⟩,
   ⟨"angostura-bitters", "Angostura Bitters"⟩, ⟨"lime-wheel", "Lime Wheel"⟩,
   ⟨"lemon-twist", "Lemon Twist"⟩, ⟨"cherry-maraschino", "Maraschino Cherry"⟩,
   ⟨"mint-sprig", "Fresh Mint Sprig"⟩]

/-- Compiled-in static glass types (`src/data/ingredients.ts`, `glassTypes`). -/
def staticGlassTypes : List GlassType :=
  [⟨"highball", "Highball Glass"⟩, ⟨"rocks", "Rocks Glass"⟩,
   ⟨"martini", "Martini Glass"⟩, ⟨"coupe", "Coupe Glass"⟩,
   ⟨"collins", "Collins Glass"⟩, ⟨"shot", "Shot Glass"⟩]

/-- Compiled-in static categories (`src/data/categories.ts`,
`initialCategories`). -/
def staticCategories : List Category :=
  [⟨"classic", "Classic"⟩, ⟨"modern", "Modern"⟩, ⟨"tropical", "Tropical"⟩,
   ⟨"sour", "Sour"⟩, ⟨"sweet", "Sweet"⟩, ⟨"bitter", "Bitter"⟩,
   ⟨"strong", "Strong"⟩, ⟨"refreshing", "Refreshing"⟩, ⟨"creamy", "Creamy"⟩,
   ⟨"hot", "Hot"⟩, ⟨"frozen", "Frozen"⟩]

/-! ## Durable Local Store (`src/lib/localDatabase.ts`, class `LocalDatabase`) -/

/-- `CACHE_EXPIRATION_MS = 10 * 60 * 1000` (localDatabase.ts line 21). -/
def CACHE_EXPIRATION_MS : Nat := 10 * 60 * 1000

/-- One entry of the `metadata` object store (interface `CacheMetadata`);
the `store` key is implicit in where the entry sits inside `DBState`. -/
structure CacheMetadata where
  lastUpdated : Nat
  version : Nat
deriving DecidableEq, Repr

/-- One IndexedDB object store plus its metadata record. -/
structure Store (α : Type) where
  data : List α
  meta : Option CacheMetadata
deriving DecidableEq, Repr

/-- The empty object store: no records, no metadata entry. -/
def Store.empty : Store α := ⟨[], none⟩

/-- The persistent contents of the `TippleCache` IndexedDB database: the four
collection object stores, each paired with its `metadata` entry. -/
structure DBState where
  cocktails : Store Cocktail
  ingredients : Store Ingredient
  glassTypes : Store GlassType
  categories : Store Category
deriving DecidableEq, Repr

def DBState.empty : DBState := ⟨Store.empty, Store.empty, Store.empty, Store.empty⟩

/-- External facts an individual LocalDatabase operation observes: whether
`indexedDB.open` succeeds in `init()`, whether the `getAll()` read request
fires `onerror`, whether the metadata `get()` request fires `onerror`, and
the current `Date.now()` clock in milliseconds. Write-request failures are
not injected: no claim below depends on a failing IndexedDB write. -/
structure DBEnv where
  initOk : Bool
  getAllErr : Bool
  metaReadErr : Bool
  now : Nat
deriving DecidableEq, Repr

/-- A healthy environment at clock `t`. -/
def DBEnv.ok (t : Nat) : DBEnv := ⟨true, false, false, t⟩

/-- Rejection value of an IndexedDB request promise. -/
inductive DBErr
  | requestError
deriving DecidableEq, Repr

/-- `LocalDatabase.isCacheFresh` (localDatabase.ts lines 139-172): resolves
`false` when `init()` rejects (outer catch), when the metadata read request
errors (`request.onerror` resolves `false`), when no metadata record exists,
and otherwise compares the age against `CACHE_EXPIRATION_MS`. It never
rejects. -/
def isCacheFresh (env : DBEnv) (meta : Option CacheMetadata) : Bool :=
  if !env.initOk then false
  else if env.metaReadErr then false
  else
    match meta with
    | none => false
    | some m => env.now - m.lastUpdated < CACHE_EXPIRATION_MS

/-- `LocalDatabase.getFromStore` (localDatabase.ts lines 200-224). When
`init()` rejects, the outer catch returns `[]`. When the store's `getAll()`
request errors, the inner promise rejects; that promise is *returned* from
inside the `try` block without an `await`, so in JavaScript semantics its
rejection bypasses the surrounding `catch` and propagates to the caller:
the operation rejects. Otherwise it resolves with the store contents. -/
def getFromStore (env : DBEnv) (s : Store α) : Except DBErr (List α) :=
  if !env.initOk then .ok []
  else if env.getAllErr then .error .requestError
  else .ok s.data

/-- `LocalDatabase.saveToStore` (localDatabase.ts lines 229-260): clear the
store, insert every record, then stamp a metadata record at the current
clock (`updateMetadata`, lines 177-195). When `init()` rejects the outer
catch absorbs the error and nothing is written. -/
def saveToStore (env : DBEnv) (s : Store α) (xs : List α) : Store α :=
  if !env.initOk then s
  else { data := xs, meta := some ⟨env.now, 1⟩ }

/-- `LocalDatabase.getCocktails` (localDatabase.ts lines 265-269): freshness
check followed by the store read; a rejection of the read propagates. -/
def LocalDatabase.getCocktails (env : DBEnv) (db : DBState) :
    Except DBErr (List Cocktail × Bool) := do
  let fresh := isCacheFresh env db.cocktails.meta
  let data ← getFromStore env db.cocktails
  return (data, fresh)

/-- `LocalDatabase.getIngredients` (localDatabase.ts lines 281-285). -/
def LocalDatabase.getIngredients (env : DBEnv) (db : DBState) :
    Except DBErr (List Ingredient × Bool) := do
  let fresh := isCacheFresh env db.ingredients.meta
  let data ← getFromStore env db.ingredients
  return (data, fresh)

/-- `LocalDatabase.getGlassTypes` (localDatabase.ts lines 297-301). -/
def LocalDatabase.getGlassTypes (env : DBEnv) (db : DBState) :
    Except DBErr (List GlassType × Bool) := do
  let fresh := isCacheFresh env db.glassTypes.meta
  let data ← getFromStore env db.glassTypes
  return (data, fresh)

/-- `LocalDatabase.getCategories` (localDatabase.ts lines 313-317). -/
def LocalDatabase.getCategories (env : DBEnv) (db : DBState) :
    Except DBErr (List Category × Bool) := do
  let fresh := isCacheFresh env db.categories.meta
  let data ← getFromStore env db.categories
  return (data, fresh)

/-- `LocalDatabase.saveCocktails` (localDatabase.ts lines 274-276). -/
def LocalDatabase.saveCocktails (env : DBEnv) (db : DBState)
    (xs : List Cocktail) : DBState :=
  { db with cocktails := saveToStore env db.cocktails xs }

/-- `LocalDatabase.saveIngredients` (localDatabase.ts lines 290-292). -/
def LocalDatabase.saveIngredients (env : DBEnv) (db : DBState)
    (xs : List Ingredient) : DBState :=
  { db with ingredients := saveToStore env db.ingredients xs }

/-- `LocalDatabase.saveGlassTypes` (localDatabase.ts lines 306-308). -/
def LocalDatabase.saveGlassTypes (env : DBEnv) (db : DBState)
    (xs : List GlassType) : DBState :=
  { db with glassTypes := saveToStore env db.glassTypes xs }

/-- `LocalDatabase.saveCategories` (localDatabase.ts lines 322-324). -/
def LocalDatabase.saveCategories (env : DBEnv) (db : DBState)
    (xs : List Category) : DBState :=
  { db with categories := saveToStore env db.categories xs }

/-! ## Remote Data Gateway (`src/lib/storage.ts`, object `adminDataStorage`) -/

/-- Failure conditions of Gateway reads. -/
inductive GwErr
  | remoteUnavailable
  | remoteError
deriving DecidableEq, Repr

/-- External facts a Gateway read observes: whether `isSupabaseAvailable()`
reports the remote reachable, the outcome of each collection's Supabase
select (already mapped to records; `.error ()` is a non-null `error` field),
whether a browser `window`/localStorage exists, and the current contents of
the `cocktailflow-admin-ingredients` localStorage key. -/
structure RemoteEnv where
  available : Bool
  cocktailRows : Except Unit (List Cocktail)
  ingredientRows : Except Unit (List Ingredient)
  glassRows : Except Unit (List GlassType)
  categoryRows : Except Unit (List Category)
  hasWindow : Bool
  lsIngredients : Option (List Ingredient)
deriving Repr

/-- `adminDataStorage.getCocktails` (storage.ts lines 252-292): when Supabase
is unavailable it throws; when the select reports an error it throws; the
outer catch rethrows, so every failure is surfaced. On success it resolves
with the mapped rows. -/
def adminDataStorage.getCocktails (env : RemoteEnv) :
    Except GwErr (List Cocktail) :=
  if env.available then
    match env.cocktailRows with
    | .ok rows => .ok rows
    | .error _ => .error .remoteError
  else .error .remoteUnavailable

/-- `adminDataStorage.getGlassTypes` (storage.ts lines 938-973): same
surface-every-failure shape as `getCocktails`. -/
def adminDataStorage.getGlassTypes (env : RemoteEnv) :
    Except GwErr (List GlassType) :=
  if env.available then
    match env.glassRows with
    | .ok rows => .ok rows
    | .error _ => .error .remoteError
  else .error .remoteUnavailable

/-- `adminDataStorage.getCategories` (storage.ts lines 1261-1296): same
surface-every-failure shape as `getCocktails`. -/
def adminDataStorage.getCategories (env : RemoteEnv) :
    Except GwErr (List Category) :=
  if env.available then
    match env.categoryRows with
    | .ok rows => .ok rows
    | .error _ => .error .remoteError
  else .error .remoteUnavailable

/-- LocalStorage fallback branch of `adminDataStorage.getIngredients`
(storage.ts lines 661-674): return the stored list if one exists, else the
empty list; the localStorage key is left as it was. -/
def adminDataStorage.ingredientsFallback (env : RemoteEnv) :
    List Ingredient × Option (List Ingredient) :=
  if env.hasWindow then
    match env.lsIngredients with
    | some stored => (stored, env.lsIngredients)
    | none => ([], env.lsIngredients)
  else ([], env.lsIngredients)

/-- `adminDataStorage.getIngredients` (storage.ts lines 631-675). Unlike the
other three collection getters this one *never rejects*: a failed or
unavailable remote falls through (the `if (!error && data)` has no throwing
else-branch, and the catch only logs) to the localStorage fallback, and the
final statement returns `[]`. On success the rows are also cached into the
`cocktailflow-admin-ingredients` localStorage key. The returned pair is
(resolved value, localStorage key contents afterwards). -/
def adminDataStorage.getIngredients (env : RemoteEnv) :
    List Ingredient × Option (List Ingredient) :=
  if env.available then
    match env.ingredientRows with
    | .ok rows => (rows, if env.hasWindow then some rows else env.lsIngredients)
    | .error _ => adminDataStorage.ingredientsFallback env
  else adminDataStorage.ingredientsFallback env

/-- External facts a Gateway write observes: remote availability, whether an
authenticated user exists, whether that user holds the `is_admin` role, the
presence of `window`/localStorage, and whether the remote write request
itself fails. -/
structure AuthEnv where
  available : Bool
  user : Bool
  isAdmin : Bool
  hasWindow : Bool
  writeErr : Bool
deriving DecidableEq, Repr

/-- Failure conditions of Gateway writes. -/
inductive WErr
  | adminRequired
  | authRequired
  | notAvailable
  | remoteError
  | noLocalStorage
deriving DecidableEq, Repr

/-- `adminDataStorage.saveCocktails` (storage.ts lines 294-379). Effect on
the `cocktailflow-admin-cocktails` localStorage key, paired with the
operation's outcome. When available + authenticated + admin + write ok, the
remote delete-then-insert succeeds and the localStorage cache is set (line
347). Every other path reaches the localStorage fallback (lines 369-378):
the non-admin and unauthenticated branches only log a warning (no throw),
and remote failures are absorbed by the catch at line 365 — so the
operation still resolves successfully after writing localStorage. -/
def adminDataStorage.saveCocktails (env : AuthEnv)
    (ls : Option (List Cocktail)) (xs : List Cocktail) :
    Except WErr Unit × Option (List Cocktail) :=
  if env.available && env.user && env.isAdmin && !env.writeErr then
    (.ok (), if env.hasWindow then some xs else ls)
  else
    (.ok (), if env.hasWindow then some xs else ls)

/-- `adminDataStorage.addSingleCocktail` (storage.ts lines 381-464). On the
happy path the single record is inserted remotely and *pushed* onto the
localStorage cached array (lines 427-433). The non-admin and
unauthenticated branches throw, but the outer catch (line 445) absorbs the
error and control reaches the localStorage fallback (lines 450-457), which
pushes the record and resolves successfully; it rejects only when no
localStorage exists (line 459). -/
def adminDataStorage.addSingleCocktail (env : AuthEnv)
    (ls : Option (List Cocktail)) (c : Cocktail) :
    Except WErr Unit × Option (List Cocktail) :=
  if env.available && env.user && env.isAdmin && !env.writeErr then
    (.ok (), if env.hasWindow then some (ls.getD [] ++ [c]) else ls)
  else
    if env.hasWindow then (.ok (), some (ls.getD [] ++ [c]))
    else (.error .noLocalStorage, ls)

/-- `adminDataStorage.addSingleGlassType` (storage.ts lines 1027-1100): the
same swallow-and-fall-back shape as `addSingleCocktail`, on the
`cocktailflow-admin-glass-types` key. -/
def adminDataStorage.addSingleGlassType (env : AuthEnv)
    (ls : Option (List GlassType)) (g : GlassType) :
    Except WErr Unit × Option (List GlassType) :=
  if env.available && env.user && env.isAdmin && !env.writeErr then
    (.ok (), if env.hasWindow then some (ls.getD [] ++ [g]) else ls)
  else
    if env.hasWindow then (.ok (), some (ls.getD [] ++ [g]))
    else (.error .noLocalStorage, ls)

/-- `adminDataStorage.addSingleIngredient` (storage.ts lines 777-835). Every
failure path throws and the outer catch *rethrows* (line 833): unavailable
remote, missing user, missing admin role and remote insert errors are all
surfaced. The success-path localStorage cache refresh (line 814-817) touches
no state any claim depends on and is omitted. -/
def adminDataStorage.addSingleIngredient (env : AuthEnv) (_i : Ingredient) :
    Except WErr Unit :=
  if !env.available then .error .notAvailable
  else if !env.user then .error .authRequired
  else if !env.isAdmin then .error .adminRequired
  else if env.writeErr then .error .remoteError
  else .ok ()

/-- `adminDataStorage.saveCategories` (storage.ts lines 1298-1345): throws
`User is not an admin` / `User not authenticated` / `Supabase is not
available`, and the outer catch rethrows, so permission failures are
surfaced. The insert runs (and can fail) only for a non-empty list; the
result of the preceding delete is not checked by the source. -/
def adminDataStorage.saveCategories (env : AuthEnv) (xs : List Category) :
    Except WErr Unit :=
  if !env.available then .error .notAvailable
  else if !env.user then .error .authRequired
  else if !env.isAdmin then .error .adminRequired
  else if env.writeErr && !xs.isEmpty then .error .remoteError
  else .ok ()

/-- `adminDataStorage.addSingleCategory` (storage.ts lines 1347-1396): every
failure path throws and the outer catch rethrows. -/
def adminDataStorage.addSingleCategory (env : AuthEnv) (_c : Category) :
    Except WErr Unit :=
  if !env.available then .error .notAvailable
  else if !env.user then .error .authRequired
  else if !env.isAdmin then .error .adminRequired
  else if env.writeErr then .error .remoteError
  else .ok ()

/-! ## Smart Cache Coordinator (`src/lib/smartCache.ts`, class `SmartCache`)

The coordinator is modelled as explicit state passing. Because the host
runtime is single-threaded, an async function runs synchronously up to its
first `await`; interleaving points are therefore only at awaits, and the
two-caller traces below interleave exactly there. `gatewayCalls` logs each
Remote Gateway `fetchAll` invocation, `bgScheduled` the `setTimeout`-queued
background refresh tasks. -/

/-- Mutable state of the `SmartCache` singleton plus the observable effect
trace of a run. -/
structure SCState where
  db : DBState
  isRefreshing : Bool
  refreshPromises : List String
  gatewayCalls : List String
  bgScheduled : List String
deriving DecidableEq, Repr

/-- Coordinator state over the given cache contents, with no refresh in
progress, an empty single-flight map and an empty effect trace. -/
def SCState.initial (db : DBState) : SCState :=
  ⟨db, false, [], [], []⟩

/-- `SmartCache.refreshCocktailsInBackground` (smartCache.ts lines 329-339):
no-op while `isRefreshing` is set, otherwise queue a delayed
`fetchAndCacheCocktails` task via `setTimeout`. -/
def refreshCocktailsInBackground (s : SCState) : SCState :=
  if s.isRefreshing then s
  else { s with bgScheduled := s.bgScheduled ++ ["cocktails"] }

/-- `SmartCache.refreshIngredientsInBackground` (smartCache.ts lines 341-351). -/
def refreshIngredientsInBackground (s : SCState) : SCState :=
  if s.isRefreshing then s
  else { s with bgScheduled := s.bgScheduled ++ ["ingredients"] }

/-- `SmartCache.refreshGlassTypesInBackground` (smartCache.ts lines 353-363). -/
def refreshGlassTypesInBackground (s : SCState) : SCState :=
  if s.isRefreshing then s
  else { s with bgScheduled := s.bgScheduled ++ ["glassTypes"] }

/-- `SmartCache.refreshCategoriesInBackground` (smartCache.ts lines 365-375). -/
def refreshCategoriesInBackground (s : SCState) : SCState :=
  if s.isRefreshing then s
  else { s with bgScheduled := s.bgScheduled ++ ["categories"] }

/-- Synchronous prefix of `SmartCache.fetchAndCacheCocktails` (smartCache.ts
lines 192-209): the single-flight map check and, when no flight exists, the
start of `doFetchAndCacheCocktails` — whose first awaited operation is the
Gateway `fetchAll`, logged here — together with the map insert. All of this
runs before the caller first suspends. Returns `true` iff a new flight was
started; `false` means the caller joined the existing in-flight promise. -/
def fetchAndCacheCocktailsEntry (s : SCState) : Bool × SCState :=
  if s.refreshPromises.contains "cocktails" then (false, s)
  else
    (true, { s with refreshPromises := s.refreshPromises ++ ["cocktails"],
                    gatewayCalls := s.gatewayCalls ++ ["cocktails"] })

/-- Resumption of `SmartCache.doFetchAndCacheCocktails` (smartCache.ts lines
211-231) once the Gateway promise settles: on success write the data into
the Durable Local Store and return it; on failure write the *static*
dataset into the store (lines 222-228; a failure of that save is also
absorbed) and return the static dataset — the function returns normally in
both branches of its catch, so it never rejects. The `finally` clause of
`fetchAndCacheCocktails` (line 207) then removes the flight key, and every
caller awaiting the flight receives the same returned list. -/
def doFetchAndCacheCocktails (renv : RemoteEnv) (denv : DBEnv) (s : SCState) :
    List Cocktail × SCState :=
  match adminDataStorage.getCocktails renv with
  | .ok data =>
      (data, { s with db := LocalDatabase.saveCocktails denv s.db data,
                      refreshPromises := s.refreshPromises.erase "cocktails" })
  | .error _ =>
      (staticCocktails,
       { s with db := LocalDatabase.saveCocktails denv s.db staticCocktails,
                refreshPromises := s.refreshPromises.erase "cocktails" })

/-- A complete single-caller run of `SmartCache.fetchAndCacheCocktails`:
entry followed by settlement. When a flight is already in progress the
entry issues no new Gateway call and the caller awaits the in-flight
promise; under the fixed per-run environment that promise settles to the
same value computed here. -/
def fetchAndCacheCocktails (renv : RemoteEnv) (denv : DBEnv) (s : SCState) :
    List Cocktail × SCState :=
  doFetchAndCacheCocktails renv denv (fetchAndCacheCocktailsEntry s).snd

/-- Synchronous prefix of `SmartCache.fetchAndCacheIngredients` (smartCache.ts
lines 236-252), identical in shape to the cocktails one. -/
def fetchAndCacheIngredientsEntry (s : SCState) : Bool × SCState :=
  if s.refreshPromises.contains "ingredients" then (false, s)
  else
    (true, { s with refreshPromises := s.refreshPromises ++ ["ingredients"],
                    gatewayCalls := s.gatewayCalls ++ ["ingredients"] })

/-- Resumption of `SmartCache.doFetchAndCacheIngredients` (smartCache.ts lines
254-274). The Gateway ingredients getter never rejects (storage.ts lines
631-675 absorb every failure), so the static-fallback catch branch (lines
260-273) is unreachable: the try branch caches and returns whatever the
getter resolved with — which on remote failure is the getter's localStorage
fallback or the empty list, not the static dataset. -/
def doFetchAndCacheIngredients (renv : RemoteEnv) (denv : DBEnv) (s : SCState) :
    List Ingredient × SCState :=
  ((adminDataStorage.getIngredients renv).fst,
   { s with
       db := LocalDatabase.saveIngredients denv s.db
               (adminDataStorage.getIngredients renv).fst,
       refreshPromises := s.refreshPromises.erase "ingredients" })

/-- A complete single-caller run of `SmartCache.fetchAndCacheIngredients`. -/
def fetchAndCacheIngredients (renv : RemoteEnv) (denv : DBEnv) (s : SCState) :
    List Ingredient × SCState :=
  doFetchAndCacheIngredients renv denv (fetchAndCacheIngredientsEntry s).snd

/-- Synchronous prefix of `SmartCache.fetchAndCacheGlassTypes` (smartCache.ts
lines 279-299). Unlike the cocktails and ingredients variants this function
has *no* single-flight map check: it immediately starts its own Gateway
fetch, so every caller issues a fresh `fetchAll` invocation. -/
def fetchAndCacheGlassTypesEntry (s : SCState) : SCState :=
  { s with gatewayCalls := s.gatewayCalls ++ ["glassTypes"] }

/-- Resumption of `SmartCache.fetchAndCacheGlassTypes` (smartCache.ts lines
279-299) once its Gateway promise settles: save-and-return on success,
save-static-and-return-static on failure; never rejects. -/
def doFetchAndCacheGlassTypes (renv : RemoteEnv) (denv : DBEnv) (s : SCState) :
    List GlassType × SCState :=
  match adminDataStorage.getGlassTypes renv with
  | .ok data =>
      (data, { s with db := LocalDatabase.saveGlassTypes denv s.db data })
  | .error _ =>
      (staticGlassTypes,
       { s with db := LocalDatabase.saveGlassTypes denv s.db staticGlassTypes })

/-- A complete single-caller run of `SmartCache.fetchAndCacheGlassTypes`. -/
def fetchAndCacheGlassTypes (renv : RemoteEnv) (denv : DBEnv) (s : SCState) :
    List GlassType × SCState :=
  doFetchAndCacheGlassTypes renv denv (fetchAndCacheGlassTypesEntry s)

/-- Synchronous prefix of `SmartCache.fetchAndCacheCategories` (smartCache.ts
lines 304-324); like the glass-types variant it has no single-flight map. -/
def fetchAndCacheCategoriesEntry (s : SCState) : SCState :=
  { s with gatewayCalls := s.gatewayCalls ++ ["categories"] }

/-- Resumption of `SmartCache.fetchAndCacheCategories` (smartCache.ts lines
304-324). -/
def doFetchAndCacheCategories (renv : RemoteEnv) (denv : DBEnv) (s : SCState) :
    List Category × SCState :=
  match adminDataStorage.getCategories renv with
  | .ok data =>
      (data, { s with db := LocalDatabase.saveCategories denv s.db data })
  | .error _ =>
      (staticCategories,
       { s with db := LocalDatabase.saveCategories denv s.db staticCategories })

/-- A complete single-caller run of `SmartCache.fetchAndCacheCategories`. -/
def fetchAndCacheCategories (renv : RemoteEnv) (denv : DBEnv) (s : SCState) :
    List Category × SCState :=
  doFetchAndCacheCategories renv denv (fetchAndCacheCategoriesEntry s)

/-- Outcome of the synchronous prefix of a `get` call: either the caller is
answered without entering fetch-and-cache, or it falls through to it. -/
inductive GetStep (α : Type)
  | immediate (xs : List α)
  | fetchNeeded
deriving DecidableEq, Repr

/-- Synchronous prefix of `SmartCache.getCocktails` (smartCache.ts lines
20-60): read the local cache; fresh non-empty data is returned as is; stale
non-empty data is returned after scheduling a background refresh; empty
data falls through to fetch-and-cache. When the cache read rejects, the
catch block (lines 42-59) retries the read — which under the per-call
environment rejects again and is absorbed at line 52 — and returns the
static dataset *without* caching it. -/
def getCocktailsPrefix (denv : DBEnv) (s : SCState) : GetStep Cocktail × SCState :=
  match LocalDatabase.getCocktails denv s.db with
  | .error _ => (.immediate staticCocktails, s)
  | .ok (data, fresh) =>
      if fresh && !data.isEmpty then (.immediate data, s)
      else if !data.isEmpty then (.immediate data, refreshCocktailsInBackground s)
      else (.fetchNeeded, s)

/-- `SmartCache.getCocktails` (smartCache.ts lines 20-60), single caller. -/
def getCocktails (renv : RemoteEnv) (denv : DBEnv) (s : SCState) :
    List Cocktail × SCState :=
  match getCocktailsPrefix denv s with
  | (.immediate xs, s₁) => (xs, s₁)
  | (.fetchNeeded, s₁) => fetchAndCacheCocktails renv denv s₁

/-- Synchronous prefix of `SmartCache.getIngredients` (smartCache.ts lines
65-105), same shape as the cocktails one. -/
def getIngredientsPrefix (denv : DBEnv) (s : SCState) : GetStep Ingredient × SCState :=
  match LocalDatabase.getIngredients denv s.db with
  | .error _ => (.immediate staticIngredients, s)
  | .ok (data, fresh) =>
      if fresh && !data.isEmpty then (.immediate data, s)
      else if !data.isEmpty then (.immediate data, refreshIngredientsInBackground s)
      else (.fetchNeeded, s)

/-- `SmartCache.getIngredients` (smartCache.ts lines 65-105), single caller. -/
def getIngredients (renv : RemoteEnv) (denv : DBEnv) (s : SCState) :
    List Ingredient × SCState :=
  match getIngredientsPrefix denv s with
  | (.immediate xs, s₁) => (xs, s₁)
  | (.fetchNeeded, s₁) => fetchAndCacheIngredients renv denv s₁

/-- Synchronous prefix of `SmartCache.getGlassTypes` (smartCache.ts lines
110-146). -/
def getGlassTypesPrefix (denv : DBEnv) (s : SCState) : GetStep GlassType × SCState :=
  match LocalDatabase.getGlassTypes denv s.db with
  | .error _ => (.immediate staticGlassTypes, s)
  | .ok (data, fresh) =>
      if fresh && !data.isEmpty then (.immediate data, s)
      else if !data.isEmpty then (.immediate data, refreshGlassTypesInBackground s)
      else (.fetchNeeded, s)

/-- `SmartCache.getGlassTypes` (smartCache.ts lines 110-146), single caller. -/
def getGlassTypes (renv : RemoteEnv) (denv : DBEnv) (s : SCState) :
    List GlassType × SCState :=
  match getGlassTypesPrefix denv s with
  | (.immediate xs, s₁) => (xs, s₁)
  | (.fetchNeeded, s₁) => fetchAndCacheGlassTypes renv denv s₁

/-- Synchronous prefix of `SmartCache.getCategories` (smartCache.ts lines
151-187). -/
def getCategoriesPrefix (denv : DBEnv) (s : SCState) : GetStep Category × SCState :=
  match LocalDatabase.getCategories denv s.db with
  | .error _ => (.immediate staticCategories, s)
  | .ok (data, fresh) =>
      if fresh && !data.isEmpty then (.immediate data, s)
      else if !data.isEmpty then (.immediate data, refreshCategoriesInBackground s)
      else (.fetchNeeded, s)

/-- `SmartCache.getCategories` (smartCache.ts lines 151-187), single caller. -/
def getCategories (renv : RemoteEnv) (denv : DBEnv) (s : SCState) :
    List Category × SCState :=
  match getCategoriesPrefix denv s with
  | (.immediate xs, s₁) => (xs, s₁)
  | (.fetchNeeded, s₁) => fetchAndCacheCategories renv denv s₁

/-- `SmartCache.forceRefreshAll` (smartCache.ts lines 380-398): set
`isRefreshing`, run the four fetch-and-cache operations (`Promise.all`),
clear `isRefreshing` in the `finally`. The catch at lines 392-394 would
rethrow a rejection of one of the four promises, but each
`doFetchAndCache*` returns normally in both branches of its own catch (see
above), so none of them can reject and the operation always resolves. -/
def forceRefreshAll (renv : RemoteEnv) (denv : DBEnv) (s : SCState) :
    Except GwErr Unit × SCState :=
  let s₀ := { s with isRefreshing := true }
  let s₁ := (fetchAndCacheCocktails renv denv s₀).snd
  let s₂ := (fetchAndCacheIngredients renv denv s₁).snd
  let s₃ := (fetchAndCacheGlassTypes renv denv s₂).snd
  let s₄ := (fetchAndCacheCategories renv denv s₃).snd
  (.ok (), { s₄ with isRefreshing := false })

/-- `SmartCache.forceRefreshGlassTypes` (smartCache.ts lines 403-412): the
catch would rethrow, but `fetchAndCacheGlassTypes` cannot reject. -/
def forceRefreshGlassTypes (renv : RemoteEnv) (denv : DBEnv) (s : SCState) :
    Except GwErr Unit × SCState :=
  (.ok (), (fetchAndCacheGlassTypes renv denv s).snd)

/-- `SmartCache.forceRefreshCategories` (smartCache.ts lines 417-426). -/
def forceRefreshCategories (renv : RemoteEnv) (denv : DBEnv) (s : SCState) :
    Except GwErr Unit × SCState :=
  (.ok (), (fetchAndCacheCategories renv denv s).snd)

/-! ### Two concurrent `get` calls

The traces below interleave two callers at the only suspension points the
source has: each caller's synchronous prefix runs to completion before any
in-flight fetch settles (the second caller arrives while the first caller's
work is still in flight, before any cache write). -/

/-- Two concurrent `getCocktails` calls. If caller A is answered from the
cache, caller B simply runs afterwards. If caller A falls through to
fetch-and-cache, caller B's prefix executes before A's flight settles; a
caller B that also falls through joins A's flight via the single-flight map
(smartCache.ts lines 196-198) and receives the same settled value. -/
def twoConcurrentGetCocktails (renv : RemoteEnv) (denv : DBEnv) (s₀ : SCState) :
    List Cocktail × List Cocktail × SCState :=
  match getCocktailsPrefix denv s₀ with
  | (.immediate xs, s₁) =>
      let r := getCocktails renv denv s₁
      (xs, r.fst, r.snd)
  | (.fetchNeeded, s₁) =>
      let s₂ := (fetchAndCacheCocktailsEntry s₁).snd
      match getCocktailsPrefix denv s₂ with
      | (.immediate ys, s₃) =>
          let r := doFetchAndCacheCocktails renv denv s₃
          (r.fst, ys, r.snd)
      | (.fetchNeeded, s₃) =>
          let s₄ := (fetchAndCacheCocktailsEntry s₃).snd
          let r := doFetchAndCacheCocktails renv denv s₄
          (r.fst, r.fst, r.snd)

/-- Two concurrent `getIngredients` calls; same single-flight structure as
the cocktails trace. -/
def twoConcurrentGetIngredients (renv : RemoteEnv) (denv : DBEnv) (s₀ : SCState) :
    List Ingredient × List Ingredient × SCState :=
  match getIngredientsPrefix denv s₀ with
  | (.immediate xs, s₁) =>
      let r := getIngredients renv denv s₁
      (xs, r.fst, r.snd)
  | (.fetchNeeded, s₁) =>
      let s₂ := (fetchAndCacheIngredientsEntry s₁).snd
      match getIngredientsPrefix denv s₂ with
      | (.immediate ys, s₃) =>
          let r := doFetchAndCacheIngredients renv denv s₃
          (r.fst, ys, r.snd)
      | (.fetchNeeded, s₃) =>
          let s₄ := (fetchAndCacheIngredientsEntry s₃).snd
          let r := doFetchAndCacheIngredients renv denv s₄
          (r.fst, r.fst, r.snd)

/-- Two concurrent `getGlassTypes` calls. `fetchAndCacheGlassTypes` has no
single-flight map, so when both callers fall through each starts and
settles its own Gateway fetch. -/
def twoConcurrentGetGlassTypes (renv : RemoteEnv) (denv : DBEnv) (s₀ : SCState) :
    List GlassType × List GlassType × SCState :=
  match getGlassTypesPrefix denv s₀ with
  | (.immediate xs, s₁) =>
      let r := getGlassTypes renv denv s₁
      (xs, r.fst, r.snd)
  | (.fetchNeeded, s₁) =>
      let s₂ := fetchAndCacheGlassTypesEntry s₁
      match getGlassTypesPrefix denv s₂ with
      | (.immediate ys, s₃) =>
          let r := doFetchAndCacheGlassTypes renv denv s₃
          (r.fst, ys, r.snd)
      | (.fetchNeeded, s₃) =>
          let s₄ := fetchAndCacheGlassTypesEntry s₃
          let r₁ := doFetchAndCacheGlassTypes renv denv s₄
          let r₂ := doFetchAndCacheGlassTypes renv denv r₁.snd
          (r₁.fst, r₂.fst, r₂.snd)

/-- Two concurrent `getCategories` calls; like glass types, no coalescing. -/
def twoConcurrentGetCategories (renv : RemoteEnv) (denv : DBEnv) (s₀ : SCState) :
    List Category × List Category × SCState :=
  match getCategoriesPrefix denv s₀ with
  | (.immediate xs, s₁) =>
      let r := getCategories renv denv s₁
      (xs, r.fst, r.snd)
  | (.fetchNeeded, s₁) =>
      let s₂ := fetchAndCacheCategoriesEntry s₁
      match getCategoriesPrefix denv s₂ with
      | (.immediate ys, s₃) =>
          let r := doFetchAndCacheCategories renv denv s₃
          (r.fst, ys, r.snd)
      | (.fetchNeeded, s₃) =>
          let s₄ := fetchAndCacheCategoriesEntry s₃
          let r₁ := doFetchAndCacheCategories renv denv s₄
          let r₂ := doFetchAndCacheCategories renv denv r₁.snd
          (r₁.fst, r₂.fst, r₂.snd)

/-! ## Admin add path (`src/utils/adminDataUtils.ts`, `addCocktail`) -/

/-- Observable outcome of `addCocktail`: the returned boolean, the
`cocktailflow-admin-cocktails` localStorage array afterwards, how many full
Remote Gateway `fetchAll` invocations the operation awaited, whether the
in-memory cocktail cache of `cocktailUtils.ts` was invalidated, and whether
a detached `dataRefreshManager.refreshCocktailData()` task was started. -/
structure AddCocktailResult where
  ok : Bool
  ls : Option (List Cocktail)
  fetchAllCalls : Nat
  memCacheCleared : Bool
  refreshScheduled : Bool
deriving DecidableEq, Repr

/-- `addCocktail` (adminDataUtils.ts lines 57-88). Steps: `getAdminCocktails`
awaits `adminDataStorage.getCocktails` — a full-collection Supabase select,
i.e. one Remote Gateway `fetchAll`; duplicate-identifier check over the
fetched records; `adminDataStorage.addSingleCocktail`; then
`invalidateCocktailCache()` and an un-awaited
`dataRefreshManager.refreshCocktailData()` (fire-and-forget, recorded as a
flag). Any rejection inside the try yields `false` (lines 83-87). -/
def addCocktail (renv : RemoteEnv) (aenv : AuthEnv)
    (ls : Option (List Cocktail)) (c : Cocktail) : AddCocktailResult :=
  match adminDataStorage.getCocktails renv with
  | .error _ => ⟨false, ls, 1, false, false⟩
  | .ok prior =>
      if prior.any (fun x => x.id == c.id) then ⟨false, ls, 1, false, false⟩
      else
        match adminDataStorage.addSingleCocktail aenv ls c with
        | (.error _, ls₁) => ⟨false, ls₁, 1, false, false⟩
        | (.ok _, ls₁) => ⟨true, ls₁, 1, true, true⟩

/-! ## Theorems -/

/-- C7: the spec states that the Durable Local Store's getCollection never
throws or rejects, resolving with an empty list and isFresh = false on any
storage failure. The code does degrade gracefully when the storage engine
fails to open (second conjunct), but when the engine opens and the read
request itself errors, the rejection escapes the catch (the promise built
inside the try is returned without an await) and getCollection rejects —
for every collection. -/
theorem C7_getCollection_rejects_on_request_error :
    LocalDatabase.getCocktails ⟨true, true, false, 0⟩ DBState.empty
      = .error .requestError ∧
    LocalDatabase.getCocktails ⟨false, false, false, 0⟩ DBState.empty
      = .ok ([], false) ∧
    LocalDatabase.getIngredients ⟨true, true, false, 0⟩ DBState.empty
      = .error .requestError ∧
    LocalDatabase.getGlassTypes ⟨true, true, false, 0⟩ DBState.empty
      = .error .requestError ∧
    LocalDatabase.getCategories ⟨true, true, false, 0⟩ DBState.empty
      = .error .requestError :=
  ⟨rfl, rfl, rfl, rfl, rfl⟩

/-- C8: immediately after a successful saveCollection the store's freshness
check returns true, and once the 10-minute window has elapsed with no
further writes it returns false. Stated generically in the record type, so
it covers all four collections at once. -/
theorem C8_freshness_monotonic {α : Type} (s : Store α) (xs : List α)
    (t₁ t₂ : Nat) (helapsed : CACHE_EXPIRATION_MS ≤ t₂ - t₁) :
    isCacheFresh (DBEnv.ok t₁) (saveToStore (DBEnv.ok t₁) s xs).meta = true ∧
    isCacheFresh (DBEnv.ok t₂) (saveToStore (DBEnv.ok t₁) s xs).meta = false := by
  constructor
  · simp [isCacheFresh, saveToStore, DBEnv.ok, CACHE_EXPIRATION_MS]
  · simp [isCacheFresh, saveToStore, DBEnv.ok]
    omega

/-- Witness for C8 at a concrete store, record list and clock pair. -/
theorem C8_freshness_monotonic_witness :
    CACHE_EXPIRATION_MS ≤ 600000 - 0 ∧
    (isCacheFresh (DBEnv.ok 0)
        (saveToStore (DBEnv.ok 0) (Store.empty (α := Cocktail)) staticCocktails).meta = true ∧
     isCacheFresh (DBEnv.ok 600000)
        (saveToStore (DBEnv.ok 0) (Store.empty (α := Cocktail)) staticCocktails).meta = false) :=
  ⟨by decide, C8_freshness_monotonic Store.empty staticCocktails 0 600000 (by decide)⟩

/-- C5 counterexample: the claim states that for every collection the Remote
Gateway fetchAll either returns the canonical remote data or fails. For the
ingredients collection this is false: with the remote unreachable and no
localStorage copy, the getter resolves successfully with the empty list
rather than failing. -/
theorem C5_counterexample :
    adminDataStorage.getIngredients
      ⟨false, .ok [], .ok [], .ok [], .ok [], true, none⟩ = ([], none) := rfl

/-- C5 amended: the cocktails, glass-types and categories fetchAll
operations do satisfy the claim — each either fails or returns exactly the
canonical remote rows, never locally-substituted data. The ingredients
fetchAll never rejects: on remote unavailability or a query error it
resolves with the localStorage copy, or with the empty list when none is
stored. -/
theorem C5_fetchAll_error_or_remote_data (renv : RemoteEnv) :
    (adminDataStorage.getCocktails renv = .error .remoteUnavailable ∨
     adminDataStorage.getCocktails renv = .error .remoteError ∨
     ∃ rows, renv.available = true ∧ renv.cocktailRows = .ok rows ∧
       adminDataStorage.getCocktails renv = .ok rows) ∧
    (adminDataStorage.getGlassTypes renv = .error .remoteUnavailable ∨
     adminDataStorage.getGlassTypes renv = .error .remoteError ∨
     ∃ rows, renv.available = true ∧ renv.glassRows = .ok rows ∧
       adminDataStorage.getGlassTypes renv = .ok rows) ∧
    (adminDataStorage.getCategories renv = .error .remoteUnavailable ∨
     adminDataStorage.getCategories renv = .error .remoteError ∨
     ∃ rows, renv.available = true ∧ renv.categoryRows = .ok rows ∧
       adminDataStorage.getCategories renv = .ok rows) ∧
    ((renv.available = false ∨ renv.ingredientRows = .error ()) →
      renv.hasWindow = true →
      (adminDataStorage.getIngredients renv).fst = renv.lsIngredients.getD []) := by
  obtain ⟨avail, rc, ri, rg, rcat, hw, ls⟩ := renv
  refine ⟨?_, ?_, ?_, ?_⟩
  · cases avail with
    | false => exact Or.inl rfl
    | true =>
      cases rc with
      | error e => exact Or.inr (Or.inl rfl)
      | ok rows => exact Or.inr (Or.inr ⟨rows, rfl, rfl, rfl⟩)
  · cases avail with
    | false => exact Or.inl rfl
    | true =>
      cases rg with
      | error e => exact Or.inr (Or.inl rfl)
      | ok rows => exact Or.inr (Or.inr ⟨rows, rfl, rfl, rfl⟩)
  · cases avail with
    | false => exact Or.inl rfl
    | true =>
      cases rcat with
      | error e => exact Or.inr (Or.inl rfl)
      | ok rows => exact Or.inr (Or.inr ⟨rows, rfl, rfl, rfl⟩)
  · intro hfail hwin
    subst hwin
    cases hfail with
    | inl h =>
      subst h
      cases ls <;>
        simp [adminDataStorage.getIngredients, adminDataStorage.ingredientsFallback]
    | inr h =>
      subst h
      cases avail <;> cases ls <;>
        simp [adminDataStorage.getIngredients, adminDataStorage.ingredientsFallback]

/-- Witness for C5 amended: with the remote unreachable, the ingredients
getter resolves with the stored localStorage copy. -/
theorem C5_fetchAll_error_or_remote_data_witness :
    ((false = false ∨ (Except.ok [] : Except Unit (List Ingredient)) = .error ()) ∧
     (adminDataStorage.getIngredients
        ⟨false, .ok [], .ok [], .ok [], .ok [], true, some [⟨"vodka", "Vodka"⟩]⟩).fst
       = (some [⟨"vodka", "Vodka"⟩] : Option (List Ingredient)).getD []) :=
  ⟨Or.inl rfl,
   (C5_fetchAll_error_or_remote_data
      ⟨false, .ok [], .ok [], .ok [], .ok [], true, some [⟨"vodka", "Vodka"⟩]⟩).2.2.2
     (Or.inl rfl) rfl⟩

/-- C6 counterexample: the claim states that every Remote Gateway write by a
caller without the admin role fails with a surfaced permission error. With
Supabase available and an authenticated non-admin caller, the bulk
cocktails save and the single-cocktail add both resolve successfully —
the permission failure is absorbed and the write lands in localStorage. -/
theorem C6_counterexample :
    (adminDataStorage.saveCocktails ⟨true, true, false, true, false⟩
        (some []) staticCocktails).fst = .ok () ∧
    (adminDataStorage.addSingleCocktail ⟨true, true, false, true, false⟩
        (some []) ⟨"new-drink", "New Drink"⟩).fst = .ok () :=
  ⟨rfl, rfl⟩

/-- C6 amended: which Gateway writes surface a permission failure is split
by collection. For a non-admin authenticated caller the ingredient
single-record add and the category writes reject with the permission error
(the update and delete variants in the source share their structure), while
the cocktails bulk save, the single-cocktail add and the single-glass-type
add resolve successfully after silently falling back to localStorage. -/
theorem C6_permission_surfacing_split (env : AuthEnv)
    (lsC : Option (List Cocktail)) (lsG : Option (List GlassType))
    (c : Cocktail) (g : GlassType) (i : Ingredient) (cat : Category)
    (xs : List Cocktail) (ys : List Category)
    (hAvail : env.available = true) (hUser : env.user = true)
    (hAdmin : env.isAdmin = false) :
    adminDataStorage.addSingleIngredient env i = .error .adminRequired ∧
    adminDataStorage.saveCategories env ys = .error .adminRequired ∧
    adminDataStorage.addSingleCategory env cat = .error .adminRequired ∧
    (adminDataStorage.saveCocktails env lsC xs).fst = .ok () ∧
    (env.hasWindow = true →
      (adminDataStorage.addSingleCocktail env lsC c).fst = .ok ()) ∧
    (env.hasWindow = true →
      (adminDataStorage.addSingleGlassType env lsG g).fst = .ok ()) := by
  obtain ⟨av, us, ad, hw, we⟩ := env
  simp only at hAvail hUser hAdmin
  subst hAvail hUser hAdmin
  refine ⟨?_, ?_, ?_, ?_, ?_, ?_⟩
  · simp [adminDataStorage.addSingleIngredient]
  · simp [adminDataStorage.saveCategories]
  · simp [adminDataStorage.addSingleCategory]
  · simp [adminDataStorage.saveCocktails]
  · intro hwin
    simp only at hwin
    subst hwin
    simp [adminDataStorage.addSingleCocktail]
  · intro hwin
    simp only at hwin
    subst hwin
    simp [adminDataStorage.addSingleGlassType]

/-- Witness for C6 amended at a concrete non-admin environment. -/
theorem C6_permission_surfacing_split_witness :
    (⟨true, true, false, true, false⟩ : AuthEnv).available = true ∧
    (adminDataStorage.addSingleIngredient ⟨true, true, false, true, false⟩
        ⟨"vodka", "Vodka"⟩ = .error .adminRequired ∧
     adminDataStorage.saveCategories ⟨true, true, false, true, false⟩
        staticCategories = .error .adminRequired ∧
     adminDataStorage.addSingleCategory ⟨true, true, false, true, false⟩
        ⟨"classic", "Classic"⟩ = .error .adminRequired ∧
     (adminDataStorage.saveCocktails ⟨true, true, false, true, false⟩
        (some []) staticCocktails).fst = .ok () ∧
     ((⟨true, true, false, true, false⟩ : AuthEnv).hasWindow = true →
       (adminDataStorage.addSingleCocktail ⟨true, true, false, true, false⟩
          (some []) ⟨"new-drink", "New Drink"⟩).fst = .ok ()) ∧
     ((⟨true, true, false, true, false⟩ : AuthEnv).hasWindow = true →
       (adminDataStorage.addSingleGlassType ⟨true, true, false, true, false⟩
          (some []) ⟨"tiki", "Tiki Mug"⟩).fst = .ok ())) :=
  ⟨rfl,
   C6_permission_surfacing_split ⟨true, true, false, true, false⟩
     (some []) (some []) ⟨"new-drink", "New Drink"⟩ ⟨"tiki", "Tiki Mug"⟩
     ⟨"vodka", "Vodka"⟩ ⟨"classic", "Classic"⟩ staticCocktails staticCategories
     rfl rfl rfl⟩

/-- C1 counterexample: the claim states that when the cache is empty and the
remote fetch fails, get returns the static defaults and leaves the Durable
Local Store unchanged. In fact the empty-cache failure path writes the
static dataset into the store (doFetchAndCacheCocktails, smartCache.ts
lines 222-228). -/
theorem C1_counterexample :
    (getCocktails ⟨false, .ok [], .ok [], .ok [], .ok [], true, none⟩
        (DBEnv.ok 0) (SCState.initial DBState.empty)).fst = staticCocktails ∧
    (getCocktails ⟨false, .ok [], .ok [], .ok [], .ok [], true, none⟩
        (DBEnv.ok 0) (SCState.initial DBState.empty)).snd.db.cocktails.data
      = staticCocktails ∧
    staticCocktails ≠ [] :=
  ⟨rfl, rfl, by decide⟩

/-- C1 amended: when get finds the cache empty and the remote is
unreachable, the cocktails, glass-types and categories paths return the
compiled-in static defaults but also write them into the Durable Local
Store, stamping freshness; the ingredients path returns and caches the
Gateway's own localStorage fallback (empty when nothing is stored) because
that Gateway getter absorbs its failures, so the static ingredients are not
used on this path at all. -/
theorem C1_remote_failure_caches_static (t : Nat)
    (rc : Except Unit (List Cocktail)) (ri : Except Unit (List Ingredient))
    (rg : Except Unit (List GlassType)) (rcat : Except Unit (List Category))
    (ls : Option (List Ingredient)) :
    (getCocktails ⟨false, rc, ri, rg, rcat, true, ls⟩ (DBEnv.ok t)
        (SCState.initial DBState.empty)).fst = staticCocktails ∧
    (getCocktails ⟨false, rc, ri, rg, rcat, true, ls⟩ (DBEnv.ok t)
        (SCState.initial DBState.empty)).snd.db.cocktails
      = ⟨staticCocktails, some ⟨t, 1⟩⟩ ∧
    (getGlassTypes ⟨false, rc, ri, rg, rcat, true, ls⟩ (DBEnv.ok t)
        (SCState.initial DBState.empty)).fst = staticGlassTypes ∧
    (getGlassTypes ⟨false, rc, ri, rg, rcat, true, ls⟩ (DBEnv.ok t)
        (SCState.initial DBState.empty)).snd.db.glassTypes
      = ⟨staticGlassTypes, some ⟨t, 1⟩⟩ ∧
    (getCategories ⟨false, rc, ri, rg, rcat, true, ls⟩ (DBEnv.ok t)
        (SCState.initial DBState.empty)).fst = staticCategories ∧
    (getCategories ⟨false, rc, ri, rg, rcat, true, ls⟩ (DBEnv.ok t)
        (SCState.initial DBState.empty)).snd.db.categories
      = ⟨staticCategories, some ⟨t, 1⟩⟩ ∧
    (getIngredients ⟨false, rc, ri, rg, rcat, true, ls⟩ (DBEnv.ok t)
        (SCState.initial DBState.empty)).fst = ls.getD [] ∧
    (getIngredients ⟨false, rc, ri, rg, rcat, true, ls⟩ (DBEnv.ok t)
        (SCState.initial DBState.empty)).snd.db.ingredients
      = ⟨ls.getD [], some ⟨t, 1⟩⟩ := by
  cases ls <;>
    simp [getCocktails, getCocktailsPrefix, getGlassTypes, getGlassTypesPrefix,
      getCategories, getCategoriesPrefix, getIngredients, getIngredientsPrefix,
      LocalDatabase.getCocktails, LocalDatabase.getGlassTypes,
      LocalDatabase.getCategories, LocalDatabase.getIngredients,
      isCacheFresh, getFromStore, DBEnv.ok, SCState.initial, DBState.empty,
      Store.empty, fetchAndCacheCocktails, fetchAndCacheCocktailsEntry,
      doFetchAndCacheCocktails, fetchAndCacheGlassTypes,
      fetchAndCacheGlassTypesEntry, doFetchAndCacheGlassTypes,
      fetchAndCacheCategories, fetchAndCacheCategoriesEntry,
      doFetchAndCacheCategories, fetchAndCacheIngredients,
      fetchAndCacheIngredientsEntry, doFetchAndCacheIngredients,
      adminDataStorage.getCocktails, adminDataStorage.getGlassTypes,
      adminDataStorage.getCategories, adminDataStorage.getIngredients,
      adminDataStorage.ingredientsFallback, LocalDatabase.saveCocktails,
      LocalDatabase.saveGlassTypes, LocalDatabase.saveCategories,
      LocalDatabase.saveIngredients, saveToStore]

/-- C2 counterexample: the claim asserts single-flight coalescing for every
collection name. The glass-types fetch-and-cache has no single-flight map,
so two concurrent gets against the Empty glass-types collection issue two
Remote Gateway fetchAll invocations instead of one. -/
theorem C2_counterexample :
    (twoConcurrentGetGlassTypes
        ⟨true, .ok [], .ok [], .ok [⟨"highball", "Highball Glass"⟩], .ok [], true, none⟩
        (DBEnv.ok 0) (SCState.initial DBState.empty)).snd.snd.gatewayCalls
      = ["glassTypes", "glassTypes"] := rfl

/-- C2 amended: single-flight coalescing holds for the cocktails and
ingredients collections — two concurrent gets against an Empty collection
issue exactly one Gateway fetchAll and both callers receive the remote
data — but not for glass types and categories, whose fetch-and-cache has no
single-flight map: there two concurrent gets issue two fetchAll
invocations (each caller still receiving the remote data). -/
theorem C2_single_flight_cocktails_ingredients_only (t : Nat)
    (rc : List Cocktail) (ri : List Ingredient) (rg : List GlassType)
    (rcat : List Category) :
    (twoConcurrentGetCocktails ⟨true, .ok rc, .ok ri, .ok rg, .ok rcat, true, none⟩
        (DBEnv.ok t) (SCState.initial DBState.empty)).fst = rc ∧
    (twoConcurrentGetCocktails ⟨true, .ok rc, .ok ri, .ok rg, .ok rcat, true, none⟩
        (DBEnv.ok t) (SCState.initial DBState.empty)).snd.fst = rc ∧
    (twoConcurrentGetCocktails ⟨true, .ok rc, .ok ri, .ok rg, .ok rcat, true, none⟩
        (DBEnv.ok t) (SCState.initial DBState.empty)).snd.snd.gatewayCalls
      = ["cocktails"] ∧
    (twoConcurrentGetIngredients ⟨true, .ok rc, .ok ri, .ok rg, .ok rcat, true, none⟩
        (DBEnv.ok t) (SCState.initial DBState.empty)).fst = ri ∧
    (twoConcurrentGetIngredients ⟨true, .ok rc, .ok ri, .ok rg, .ok rcat, true, none⟩
        (DBEnv.ok t) (SCState.initial DBState.empty)).snd.fst = ri ∧
    (twoConcurrentGetIngredients ⟨true, .ok rc, .ok ri, .ok rg, .ok rcat, true, none⟩
        (DBEnv.ok t) (SCState.initial DBState.empty)).snd.snd.gatewayCalls
      = ["ingredients"] ∧
    (twoConcurrentGetGlassTypes ⟨true, .ok rc, .ok ri, .ok rg, .ok rcat, true, none⟩
        (DBEnv.ok t) (SCState.initial DBState.empty)).fst = rg ∧
    (twoConcurrentGetGlassTypes ⟨true, .ok rc, .ok ri, .ok rg, .ok rcat, true, none⟩
        (DBEnv.ok t) (SCState.initial DBState.empty)).snd.fst = rg ∧
    (twoConcurrentGetGlassTypes ⟨true, .ok rc, .ok ri, .ok rg, .ok rcat, true, none⟩
        (DBEnv.ok t) (SCState.initial DBState.empty)).snd.snd.gatewayCalls
      = ["glassTypes", "glassTypes"] ∧
    (twoConcurrentGetCategories ⟨true, .ok rc, .ok ri, .ok rg, .ok rcat, true, none⟩
        (DBEnv.ok t) (SCState.initial DBState.empty)).fst = rcat ∧
    (twoConcurrentGetCategories ⟨true, .ok rc, .ok ri, .ok rg, .ok rcat, true, none⟩
        (DBEnv.ok t) (SCState.initial DBState.empty)).snd.fst = rcat ∧
    (twoConcurrentGetCategories ⟨true, .ok rc, .ok ri, .ok rg, .ok rcat, true, none⟩
        (DBEnv.ok t) (SCState.initial DBState.empty)).snd.snd.gatewayCalls
      = ["categories", "categories"] := by
  simp [twoConcurrentGetCocktails, twoConcurrentGetIngredients,
    twoConcurrentGetGlassTypes, twoConcurrentGetCategories,
    getCocktailsPrefix, getIngredientsPrefix, getGlassTypesPrefix,
    getCategoriesPrefix, getCocktails, getIngredients, getGlassTypes,
    getCategories, LocalDatabase.getCocktails, LocalDatabase.getIngredients,
    LocalDatabase.getGlassTypes, LocalDatabase.getCategories, isCacheFresh,
    getFromStore, DBEnv.ok, SCState.initial, DBState.empty, Store.empty,
    fetchAndCacheCocktailsEntry, doFetchAndCacheCocktails,
    fetchAndCacheIngredientsEntry, doFetchAndCacheIngredients,
    fetchAndCacheGlassTypesEntry, doFetchAndCacheGlassTypes,
    fetchAndCacheCategoriesEntry, doFetchAndCacheCategories,
    adminDataStorage.getCocktails, adminDataStorage.getIngredients,
    adminDataStorage.getGlassTypes, adminDataStorage.getCategories,
    LocalDatabase.saveCocktails, LocalDatabase.saveIngredients,
    LocalDatabase.saveGlassTypes, LocalDatabase.saveCategories, saveToStore]

/-- C3 counterexample: the claim states that a Gateway failure during a
forced refresh is propagated to the caller. With the remote unreachable —
every Gateway fetch failing — forceRefreshAll still resolves successfully. -/
theorem C3_counterexample :
    (forceRefreshAll ⟨false, .ok [], .ok [], .ok [], .ok [], true, none⟩
        (DBEnv.ok 0) (SCState.initial DBState.empty)).fst = .ok () := rfl

/-- C3 amended: forceRefreshAll and the per-collection forced refreshes can
never reject, for any environment and state: each underlying
fetch-and-cache absorbs Gateway failures via its static-data fallback, so
the rethrow in forceRefreshAll is unreachable. On remote failure the forced
refresh resolves successfully having overwritten the cache with the static
datasets (and, for ingredients, with that Gateway's localStorage
fallback). -/
theorem C3_force_refresh_never_rejects :
    (∀ renv denv s,
      (forceRefreshAll renv denv s).fst = .ok () ∧
      (forceRefreshGlassTypes renv denv s).fst = .ok () ∧
      (forceRefreshCategories renv denv s).fst = .ok ()) ∧
    (∀ (t : Nat) (db : DBState) (rc : Except Unit (List Cocktail))
        (ri : Except Unit (List Ingredient)) (rg : Except Unit (List GlassType))
        (rcat : Except Unit (List Category)) (ls : Option (List Ingredient)),
      (forceRefreshAll ⟨false, rc, ri, rg, rcat, true, ls⟩ (DBEnv.ok t)
          (SCState.initial db)).snd.db.cocktails.data = staticCocktails ∧
      (forceRefreshAll ⟨false, rc, ri, rg, rcat, true, ls⟩ (DBEnv.ok t)
          (SCState.initial db)).snd.db.ingredients.data = ls.getD [] ∧
      (forceRefreshAll ⟨false, rc, ri, rg, rcat, true, ls⟩ (DBEnv.ok t)
          (SCState.initial db)).snd.db.glassTypes.data = staticGlassTypes ∧
      (forceRefreshAll ⟨false, rc, ri, rg, rcat, true, ls⟩ (DBEnv.ok t)
          (SCState.initial db)).snd.db.categories.data = staticCategories) := by
  constructor
  · intro renv denv s
    exact ⟨rfl, rfl, rfl⟩
  · intro t db rc ri rg rcat ls
    cases ls <;>
      simp [forceRefreshAll, SCState.initial, DBEnv.ok,
        fetchAndCacheCocktails, fetchAndCacheCocktailsEntry,
        doFetchAndCacheCocktails, fetchAndCacheIngredients,
        fetchAndCacheIngredientsEntry, doFetchAndCacheIngredients,
        fetchAndCacheGlassTypes, fetchAndCacheGlassTypesEntry,
        doFetchAndCacheGlassTypes, fetchAndCacheCategories,
        fetchAndCacheCategoriesEntry, doFetchAndCacheCategories,
        adminDataStorage.getCocktails, adminDataStorage.getIngredients,
        adminDataStorage.getGlassTypes, adminDataStorage.getCategories,
        adminDataStorage.ingredientsFallback, LocalDatabase.saveCocktails,
        LocalDatabase.saveIngredients, LocalDatabase.saveGlassTypes,
        LocalDatabase.saveCategories, saveToStore]

/-- C4 counterexample: the claim asserts the stale cached data is never
discarded before the refresh succeeds. Serving the single stale record and
scheduling the background refresh work as claimed, but when that refresh
then *fails* (remote unreachable), the static dataset is written over the
stale cache: the stale record is discarded although no refresh succeeded. -/
theorem C4_counterexample :
    (getCocktails ⟨false, .ok [], .ok [], .ok [], .ok [], true, none⟩
        (DBEnv.ok CACHE_EXPIRATION_MS)
        ⟨⟨⟨[⟨"custom", "My Drink"⟩], some ⟨0, 1⟩⟩, Store.empty, Store.empty,
            Store.empty⟩, false, [], [], []⟩).fst = [⟨"custom", "My Drink"⟩] ∧
    (getCocktails ⟨false, .ok [], .ok [], .ok [], .ok [], true, none⟩
        (DBEnv.ok CACHE_EXPIRATION_MS)
        ⟨⟨⟨[⟨"custom", "My Drink"⟩], some ⟨0, 1⟩⟩, Store.empty, Store.empty,
            Store.empty⟩, false, [], [], []⟩).snd.bgScheduled = ["cocktails"] ∧
    (fetchAndCacheCocktails ⟨false, .ok [], .ok [], .ok [], .ok [], true, none⟩
        (DBEnv.ok (CACHE_EXPIRATION_MS + 100))
        ⟨⟨⟨[⟨"custom", "My Drink"⟩], some ⟨0, 1⟩⟩, Store.empty, Store.empty,
            Store.empty⟩, false, [], [], ["cocktails"]⟩).snd.db.cocktails.data
      = staticCocktails ∧
    staticCocktails ≠ [⟨"custom", "My Drink"⟩] :=
  ⟨rfl, rfl, rfl, by decide⟩

/-- C4 amended: a get against a Stale non-empty collection returns the N
cached records synchronously — no Gateway call, cache untouched — and
schedules a background refresh; once that refresh completes *successfully*
with the M remote records, the cache holds exactly those M records with a
fresh stamp and a subsequent get returns them. (The original claim's final
clause fails: a background refresh that fails overwrites the stale data
with the static defaults, see the counterexample.) -/
theorem C4_stale_serve_then_refresh (ns ms : List Cocktail) (t₀ t₁ t₂ t₃ : Nat)
    (hns : ns ≠ []) (hms : ms ≠ [])
    (hstale : CACHE_EXPIRATION_MS ≤ t₁ - t₀)
    (hfresh : t₃ - t₂ < CACHE_EXPIRATION_MS) :
    (getCocktails ⟨true, .ok ms, .ok [], .ok [], .ok [], true, none⟩ (DBEnv.ok t₁)
        ⟨⟨⟨ns, some ⟨t₀, 1⟩⟩, Store.empty, Store.empty, Store.empty⟩,
          false, [], [], []⟩).fst = ns ∧
    (getCocktails ⟨true, .ok ms, .ok [], .ok [], .ok [], true, none⟩ (DBEnv.ok t₁)
        ⟨⟨⟨ns, some ⟨t₀, 1⟩⟩, Store.empty, Store.empty, Store.empty⟩,
          false, [], [], []⟩).snd
      = ⟨⟨⟨ns, some ⟨t₀, 1⟩⟩, Store.empty, Store.empty, Store.empty⟩,
          false, [], [], ["cocktails"]⟩ ∧
    (fetchAndCacheCocktails ⟨true, .ok ms, .ok [], .ok [], .ok [], true, none⟩
        (DBEnv.ok t₂)
        ⟨⟨⟨ns, some ⟨t₀, 1⟩⟩, Store.empty, Store.empty, Store.empty⟩,
          false, [], [], ["cocktails"]⟩).snd
      = ⟨⟨⟨ms, some ⟨t₂, 1⟩⟩, Store.empty, Store.empty, Store.empty⟩,
          false, [], ["cocktails"], ["cocktails"]⟩ ∧
    (getCocktails ⟨true, .ok ms, .ok [], .ok [], .ok [], true, none⟩ (DBEnv.ok t₃)
        ⟨⟨⟨ms, some ⟨t₂, 1⟩⟩, Store.empty, Store.empty, Store.empty⟩,
          false, [], ["cocktails"], ["cocktails"]⟩).fst = ms := by
  cases ns with
  | nil => exact absurd rfl hns
  | cons a as =>
    cases ms with
    | nil => exact absurd rfl hms
    | cons b bs =>
      refine ⟨?_, ?_, ?_, ?_⟩ <;>
        simp [getCocktails, getCocktailsPrefix, LocalDatabase.getCocktails,
          isCacheFresh, getFromStore, DBEnv.ok, refreshCocktailsInBackground,
          fetchAndCacheCocktails, fetchAndCacheCocktailsEntry,
          doFetchAndCacheCocktails, adminDataStorage.getCocktails,
          LocalDatabase.saveCocktails, saveToStore, Store.empty,
          Nat.not_lt.mpr hstale, hfresh]

/-- Witness for C4 amended at concrete stale data, remote data and clocks. -/
theorem C4_stale_serve_then_refresh_witness :
    ([⟨"custom", "My Drink"⟩] : List Cocktail) ≠ [] ∧
    ([⟨"gin-tonic", "Gin & Tonic"⟩, ⟨"mojito", "Mojito"⟩] : List Cocktail) ≠ [] ∧
    CACHE_EXPIRATION_MS ≤ 600000 - 0 ∧
    600200 - 600100 < CACHE_EXPIRATION_MS ∧
    (getCocktails
        ⟨true, .ok [⟨"gin-tonic", "Gin & Tonic"⟩, ⟨"mojito", "Mojito"⟩],
          .ok [], .ok [], .ok [], true, none⟩ (DBEnv.ok 600000)
        ⟨⟨⟨[⟨"custom", "My Drink"⟩], some ⟨0, 1⟩⟩, Store.empty, Store.empty,
            Store.empty⟩, false, [], [], []⟩).fst = [⟨"custom", "My Drink"⟩] :=
  ⟨by decide, by decide, by decide, by decide,
   (C4_stale_serve_then_refresh [⟨"custom", "My Drink"⟩]
      [⟨"gin-tonic", "Gin & Tonic"⟩, ⟨"mojito", "Mojito"⟩] 0 600000 600100 600200
      (by decide) (by decide) (by decide) (by decide)).1⟩

/-- C9 counterexample: the claim asserts that adding a single cocktail via
the add-path performs no full-collection Gateway fetchAll. A successful add
performs exactly one: the duplicate-identifier precheck fetches the whole
collection from the remote before the targeted insert. -/
theorem C9_counterexample :
    (addCocktail ⟨true, .ok [⟨"a", "A"⟩], .ok [], .ok [], .ok [], true, none⟩
        ⟨true, true, true, true, false⟩ (some [⟨"a", "A"⟩]) ⟨"b", "B"⟩).ok
      = true ∧
    (addCocktail ⟨true, .ok [⟨"a", "A"⟩], .ok [], .ok [], .ok [], true, none⟩
        ⟨true, true, true, true, false⟩ (some [⟨"a", "A"⟩]) ⟨"b", "B"⟩).fetchAllCalls
      = 1 :=
  ⟨rfl, rfl⟩

/-- C9 amended: a successful single-cocktail add updates the cached array
to exactly the prior records plus the new one and awaits exactly one
full-collection Gateway fetchAll — the duplicate-identifier precheck at the
start of the add path — with none after the targeted insert; it also
invalidates the in-memory cache and starts a detached refresh task. -/
theorem C9_targeted_add_one_fetchAll (prior cached : List Cocktail)
    (c : Cocktail) (hdup : prior.any (fun x => x.id == c.id) = false) :
    addCocktail ⟨true, .ok prior, .ok [], .ok [], .ok [], true, none⟩
        ⟨true, true, true, true, false⟩ (some cached) c
      = ⟨true, some (cached ++ [c]), 1, true, true⟩ := by
  simp [addCocktail, adminDataStorage.getCocktails,
    adminDataStorage.addSingleCocktail, hdup]

/-- Witness for C9 amended at a concrete prior collection and new record. -/
theorem C9_targeted_add_one_fetchAll_witness :
    ([⟨"a", "A"⟩] : List Cocktail).any (fun x => x.id == "b") = false ∧
    addCocktail ⟨true, .ok [⟨"a", "A"⟩], .ok [], .ok [], .ok [], true, none⟩
        ⟨true, true, true, true, false⟩ (some [⟨"a", "A"⟩]) ⟨"b", "B"⟩
      = ⟨true, some [⟨"a", "A"⟩, ⟨"b", "B"⟩], 1, true, true⟩ :=
  ⟨by decide,
   C9_targeted_add_one_fetchAll [⟨"a", "A"⟩] [⟨"a", "A"⟩] ⟨"b", "B"⟩ (by decide)⟩

/-- C10: while a forced refresh is in flight (isRefreshing set), a get that
observes stale non-empty cached data returns it but schedules no background
refresh for any of the four collections — the entire coordinator state,
including the background-task queue, the Gateway call log and the cache,
is left untouched. -/
theorem C10_stale_serve_skips_refresh_during_force (renv : RemoteEnv)
    (nsC : List Cocktail) (nsI : List Ingredient) (nsG : List GlassType)
    (nsK : List Category) (t₀ t₁ : Nat)
    (hC : nsC ≠ []) (hI : nsI ≠ []) (hG : nsG ≠ []) (hK : nsK ≠ [])
    (hstale : CACHE_EXPIRATION_MS ≤ t₁ - t₀) :
    (getCocktails renv (DBEnv.ok t₁)
        ⟨⟨⟨nsC, some ⟨t₀, 1⟩⟩, ⟨nsI, some ⟨t₀, 1⟩⟩, ⟨nsG, some ⟨t₀, 1⟩⟩,
            ⟨nsK, some ⟨t₀, 1⟩⟩⟩, true, [], [], []⟩).fst = nsC ∧
    (getCocktails renv (DBEnv.ok t₁)
        ⟨⟨⟨nsC, some ⟨t₀, 1⟩⟩, ⟨nsI, some ⟨t₀, 1⟩⟩, ⟨nsG, some ⟨t₀, 1⟩⟩,
            ⟨nsK, some ⟨t₀, 1⟩⟩⟩, true, [], [], []⟩).snd
      = ⟨⟨⟨nsC, some ⟨t₀, 1⟩⟩, ⟨nsI, some ⟨t₀, 1⟩⟩, ⟨nsG, some ⟨t₀, 1⟩⟩,
            ⟨nsK, some ⟨t₀, 1⟩⟩⟩, true, [], [], []⟩ ∧
    (getIngredients renv (DBEnv.ok t₁)
        ⟨⟨⟨nsC, some ⟨t₀, 1⟩⟩, ⟨nsI, some ⟨t₀, 1⟩⟩, ⟨nsG, some ⟨t₀, 1⟩⟩,
            ⟨nsK, some ⟨t₀, 1⟩⟩⟩, true, [], [], []⟩).fst = nsI ∧
    (getIngredients renv (DBEnv.ok t₁)
        ⟨⟨⟨nsC, some ⟨t₀, 1⟩⟩, ⟨nsI, some ⟨t₀, 1⟩⟩, ⟨nsG, some ⟨t₀, 1⟩⟩,
            ⟨nsK, some ⟨t₀, 1⟩⟩⟩, true, [], [], []⟩).snd
      = ⟨⟨⟨nsC, some ⟨t₀, 1⟩⟩, ⟨nsI, some ⟨t₀, 1⟩⟩, ⟨nsG, some ⟨t₀, 1⟩⟩,
            ⟨nsK, some ⟨t₀, 1⟩⟩⟩, true, [], [], []⟩ ∧
    (getGlassTypes renv (DBEnv.ok t₁)
        ⟨⟨⟨nsC, some ⟨t₀, 1⟩⟩, ⟨nsI, some ⟨t₀, 1⟩⟩, ⟨nsG, some ⟨t₀, 1⟩⟩,
            ⟨nsK, some ⟨t₀, 1⟩⟩⟩, true, [], [], []⟩).fst = nsG ∧
    (getGlassTypes renv (DBEnv.ok t₁)
        ⟨⟨⟨nsC, some ⟨t₀, 1⟩⟩, ⟨nsI, some ⟨t₀, 1⟩⟩, ⟨nsG, some ⟨t₀, 1⟩⟩,
            ⟨nsK, some ⟨t₀, 1⟩⟩⟩, true, [], [], []⟩).snd
      = ⟨⟨⟨nsC, some ⟨t₀, 1⟩⟩, ⟨nsI, some ⟨t₀, 1⟩⟩, ⟨nsG, some ⟨t₀, 1⟩⟩,
            ⟨nsK, some ⟨t₀, 1⟩⟩⟩, true, [], [], []⟩ ∧
    (getCategories renv (DBEnv.ok t₁)
        ⟨⟨⟨nsC, some ⟨t₀, 1⟩⟩, ⟨nsI, some ⟨t₀, 1⟩⟩, ⟨nsG, some ⟨t₀, 1⟩⟩,
            ⟨nsK, some ⟨t₀, 1⟩⟩⟩, true, [], [], []⟩).fst = nsK ∧
    (getCategories renv (DBEnv.ok t₁)
        ⟨⟨⟨nsC, some ⟨t₀, 1⟩⟩, ⟨nsI, some ⟨t₀, 1⟩⟩, ⟨nsG, some ⟨t₀, 1⟩⟩,
            ⟨nsK, some ⟨t₀, 1⟩⟩⟩, true, [], [], []⟩).snd
      = ⟨⟨⟨nsC, some ⟨t₀, 1⟩⟩, ⟨nsI, some ⟨t₀, 1⟩⟩, ⟨nsG, some ⟨t₀, 1⟩⟩,
            ⟨nsK, some ⟨t₀, 1⟩⟩⟩, true, [], [], []⟩ := by
  cases nsC with
  | nil => exact absurd rfl hC
  | cons a as =>
    cases nsI with
    | nil => exact absurd rfl hI
    | cons b bs =>
      cases nsG with
      | nil => exact absurd rfl hG
      | cons d ds =>
        cases nsK with
        | nil => exact absurd rfl hK
        | cons e es =>
          refine ⟨?_, ?_, ?_, ?_, ?_, ?_, ?_, ?_⟩ <;>
            simp [getCocktails, getCocktailsPrefix, getIngredients,
              getIngredientsPrefix, getGlassTypes, getGlassTypesPrefix,
              getCategories, getCategoriesPrefix, LocalDatabase.getCocktails,
              LocalDatabase.getIngredients, LocalDatabase.getGlassTypes,
              LocalDatabase.getCategories, isCacheFresh, getFromStore,
              DBEnv.ok, refreshCocktailsInBackground,
              refreshIngredientsInBackground, refreshGlassTypesInBackground,
              refreshCategoriesInBackground, Nat.not_lt.mpr hstale]

/-- Witness for C10 at concrete stale data and clocks. -/
theorem C10_stale_serve_skips_refresh_during_force_witness :
    ([⟨"a", "A"⟩] : List Cocktail) ≠ [] ∧
    ([⟨"vodka", "Vodka"⟩] : List Ingredient) ≠ [] ∧
    ([⟨"highball", "Highball Glass"⟩] : List GlassType) ≠ [] ∧
    ([⟨"classic", "Classic"⟩] : List Category) ≠ [] ∧
    CACHE_EXPIRATION_MS ≤ 700000 - 0 ∧
    (getCocktails ⟨true, .ok [], .ok [], .ok [], .ok [], true, none⟩
        (DBEnv.ok 700000)
        ⟨⟨⟨[⟨"a", "A"⟩], some ⟨0, 1⟩⟩, ⟨[⟨"vodka", "Vodka"⟩], some ⟨0, 1⟩⟩,
            ⟨[⟨"highball", "Highball Glass"⟩], some ⟨0, 1⟩⟩,
            ⟨[⟨"classic", "Classic"⟩], some ⟨0, 1⟩⟩⟩,
          true, [], [], []⟩).fst = [⟨"a", "A"⟩] :=
  ⟨by decide, by decide, by decide, by decide, by decide,
   (C10_stale_serve_skips_refresh_during_force
      ⟨true, .ok [], .ok [], .ok [], .ok [], true, none⟩
      [⟨"a", "A"⟩] [⟨"vodka", "Vodka"⟩] [⟨"highball", "Highball Glass"⟩]
      [⟨"classic", "Classic"⟩] 0 700000
      (by decide) (by decide) (by decide) (by decide) (by decide)).1⟩

end Tipple
